import Mathlib

/-!
Verification of the force-of-infection computation engine of epiabm
(pyEpiabm/property/household_foi.py and pyEpiabm/property/place_foi.py).

The Python code is shallowly embedded: numeric values are rationals,
optional duck-typed attributes (timestamps that may be absent, set to
None, or set to a value) are modelled as `Option (Option ℚ)`, dictionary
and list lookups that can raise are modelled in `Except Err`, and Python
division by zero is an explicit `Err.zeroDivisionError`.
-/

namespace Epiabm

/-- A Python runtime error surfaced by the embedded code. -/
inductive Err where
  | keyError : Err
  | indexError : Err
  | typeError : Err
  | zeroDivisionError : Err
deriving DecidableEq, Repr

/-- Parameters.intervention_params["place_closure"]. -/
structure PlaceClosureParams where
  closure_place_type : List ℕ
  closure_household_infectiousness : ℚ

/-- Parameters.intervention_params["social_distancing"]. -/
structure SocialDistancingParams where
  distancing_house_susc : ℚ
  distancing_house_enhanced_susc : ℚ
  distancing_place_susc : List ℚ
  distancing_place_enhanced_susc : List ℚ

/-- Parameters.intervention_params["case_isolation"]. -/
structure CaseIsolationParams where
  isolation_effectiveness : ℚ
  isolation_house_effectiveness : ℚ

/-- Parameters.intervention_params["household_quarantine"]. -/
structure HouseholdQuarantineParams where
  quarantine_house_effectiveness : ℚ
  quarantine_place_effectiveness : List ℚ

/-- The string-keyed intervention_params dictionary; a `none` component is
a missing key, whose lookup raises KeyError. -/
structure InterventionParams where
  place_closure : Option PlaceClosureParams
  social_distancing : Option SocialDistancingParams
  case_isolation : Option CaseIsolationParams
  household_quarantine : Option HouseholdQuarantineParams

/-- Parameters.place_params. -/
structure PlaceParams where
  place_transmission : ℚ
  mean_group_size : List ℚ

/-- Parameters.carehome_params. -/
structure CarehomeParams where
  carehome_resident_household_scaling : ℚ
  carehome_worker_group_scaling : ℚ

/-- The process-wide Parameters store (the Parameters.instance() snapshot). -/
structure Parameters where
  household_transmission : ℚ
  place_params : PlaceParams
  carehome_params : CarehomeParams
  intervention_params : InterventionParams

/-- A microcell, restricted to the duck-typed intervention timestamps the
force-of-infection code reads.  `none` models an absent attribute
(hasattr false), `some none` an attribute set to Python None, and
`some (some t)` an attribute holding the time value `t`. -/
structure Microcell where
  closure_start_time : Option (Option ℚ)
  distancing_start_time : Option (Option ℚ)

/-- A person, restricted to the attributes the force-of-infection code
reads.  `inf_curve` and `susc_curve` are the person's baseline personal
infectiousness and susceptibility curves over time (the external
PersonalInfection collaborator reads them). -/
structure Person where
  microcell : Microcell
  isolation_start_time : Option (Option ℚ)
  quarantine_start_time : Option (Option ℚ)
  distancing_enhanced : Bool
  care_home_resident : Bool
  key_worker : Bool
  place_types : List ℕ
  inf_curve : ℚ → ℚ
  susc_curve : ℚ → ℚ

/-- The finite place-type enumeration; `value` is the integer value of the
enum member (place types are enumerated from 1 in the source, so
`value - 1` below is an in-range natural subtraction). -/
structure PlaceType where
  value : ℕ

/-- A place, restricted to the attributes the force-of-infection code reads. -/
structure Place where
  place_type : PlaceType

/-- Python dictionary access on a possibly-missing key: raises KeyError
when the key is absent. -/
def dictGet {α : Type} (o : Option α) : Except Err α :=
  match o with
  | some a => Except.ok a
  | none => Except.error Err.keyError

/-- Python list indexing: raises IndexError when the index is out of range. -/
def listGet (l : List ℚ) (i : ℕ) : Except Err ℚ :=
  match l.get? i with
  | some v => Except.ok v
  | none => Except.error Err.indexError

/-- Modelled from the spec: PersonalInfection.person_inf (personal_foi.py is
not part of the given sources) — the per-person baseline infectiousness
curve over time. -/
def person_inf (infector : Person) (time : ℚ) : ℚ :=
  infector.inf_curve time

/-- Modelled from the spec: PersonalInfection.person_susc (personal_foi.py is
not part of the given sources) — the baseline personal susceptibility of
the infectee given the infector. -/
def person_susc (_infector infectee : Person) (time : ℚ) : ℚ :=
  infectee.susc_curve time

/-- Modelled from the spec: Person.is_place_closed (free_functions outside
the given sources) — whether the person's place-of-interest matches the
configured closure_place_type enumeration values. -/
def is_place_closed (p : Person) (closure_place_type : List ℕ) : Bool :=
  p.place_types.any (fun t => closure_place_type.contains t)

/-- The duck-typed timestamp gate used by the distancing, isolation and
quarantine interventions: the attribute exists, is not None, and is at or
before the current time. -/
def ts_active (ts : Option (Option ℚ)) (time : ℚ) : Bool :=
  match ts with
  | some (some t0) => decide (t0 ≤ time)
  | _ => false

/-- The place-closure gate shared by household_inf and place_inf:
hasattr(microcell, closure_start_time) and is_place_closed(...) and
closure_start_time <= time, evaluated left to right with Python
short-circuiting.  Evaluating is_place_closed looks up
closure_place_type from Parameters (KeyError when place_closure is
unconfigured), and comparing a None timestamp against time is a
TypeError. -/
def closure_active (ps : Parameters) (infector : Person) (time : ℚ) :
    Except Err Bool :=
  match infector.microcell.closure_start_time with
  | none => Except.ok false
  | some st =>
    match ps.intervention_params.place_closure with
    | none => Except.error Err.keyError
    | some pc =>
      if is_place_closed infector pc.closure_place_type then
        match st with
        | none => Except.error Err.typeError
        | some t0 => Except.ok (decide (t0 ≤ time))
      else Except.ok false

/-- The closure_inf conditional factor of HouseholdInfection.household_inf:
the closure_household_infectiousness lookup when the closure gate fires,
else 1. -/
def closure_inf_factor (ps : Parameters) (infector : Person) (time : ℚ) :
    Except Err ℚ :=
  match closure_active ps infector time with
  | Except.error e => Except.error e
  | Except.ok true =>
    match dictGet ps.intervention_params.place_closure with
    | Except.error e => Except.error e
    | Except.ok pc => Except.ok pc.closure_household_infectiousness
  | Except.ok false => Except.ok 1

/-- HouseholdInfection.household_inf. -/
def household_inf (ps : Parameters) (infector : Person) (time : ℚ) :
    Except Err ℚ :=
  match closure_inf_factor ps infector time with
  | Except.error e => Except.error e
  | Except.ok closure_inf => Except.ok (person_inf infector time * closure_inf)

/-- The social-distancing factor applied by
HouseholdInfection.household_susc: the enhanced or standard household
susceptibility reduction when the microcell distancing gate fires, else 1. -/
def distancing_house_factor (ps : Parameters) (infector : Person) (time : ℚ) :
    Except Err ℚ :=
  if ts_active infector.microcell.distancing_start_time time then
    match dictGet ps.intervention_params.social_distancing with
    | Except.error e => Except.error e
    | Except.ok sd =>
      if infector.distancing_enhanced then
        Except.ok sd.distancing_house_enhanced_susc
      else
        Except.ok sd.distancing_house_susc
  else Except.ok 1

/-- HouseholdInfection.household_susc. -/
def household_susc (ps : Parameters) (infector infectee : Person)
    (time : ℚ) : Except Err ℚ :=
  match distancing_house_factor ps infector time with
  | Except.error e => Except.error e
  | Except.ok f => Except.ok (person_susc infector infectee time * f)

/-- The isolating conditional factor of HouseholdInfection.household_foi. -/
def isolation_house_factor (ps : Parameters) (infector : Person) (time : ℚ) :
    Except Err ℚ :=
  if ts_active infector.isolation_start_time time then
    match dictGet ps.intervention_params.case_isolation with
    | Except.error e => Except.error e
    | Except.ok ci => Except.ok ci.isolation_house_effectiveness
  else Except.ok 1

/-- The quarantine conditional factor of HouseholdInfection.household_foi. -/
def quarantine_house_factor (ps : Parameters) (infector : Person) (time : ℚ) :
    Except Err ℚ :=
  if ts_active infector.quarantine_start_time time then
    match dictGet ps.intervention_params.household_quarantine with
    | Except.error e => Except.error e
    | Except.ok hq => Except.ok hq.quarantine_house_effectiveness
  else Except.ok 1

/-- The carehome_scale_inf / carehome_scale_susc value of
HouseholdInfection.household_foi: the resident scaling when the party is
a care-home resident, else 1. -/
def carehome_house_scale (ps : Parameters) (p : Person) : ℚ :=
  if p.care_home_resident then
    ps.carehome_params.carehome_resident_household_scaling
  else 1

/-- HouseholdInfection.household_foi.  seasonality is the literal 1.0
placeholder of the source; the carehome scalings apply when the
respective party is a care-home resident. -/
def household_foi (ps : Parameters) (infector infectee : Person)
    (time : ℚ) : Except Err ℚ :=
  match isolation_house_factor ps infector time with
  | Except.error e => Except.error e
  | Except.ok isolating =>
    match quarantine_house_factor ps infector time with
    | Except.error e => Except.error e
    | Except.ok quarantine =>
      match household_inf ps infector time with
      | Except.error e => Except.error e
      | Except.ok hi =>
        match household_susc ps infector infectee time with
        | Except.error e => Except.error e
        | Except.ok hs =>
          Except.ok
            ((hi * 1 * ps.household_transmission *
                carehome_house_scale ps infector *
                isolating * quarantine) *
              (hs * carehome_house_scale ps infectee))

/-- PlaceInfection.place_inf.  The mean_group_size index miss is caught
(try/except IndexError, defaulting to 1); the division is Python float
division, raising ZeroDivisionError on a zero group size. -/
def place_inf (ps : Parameters) (place : Place) (infector : Person)
    (time : ℚ) : Except Err ℚ :=
  match closure_active ps infector time with
  | Except.error e => Except.error e
  | Except.ok true => Except.ok 0
  | Except.ok false =>
    if (ps.place_params.mean_group_size.get?
        (place.place_type.value - 1)).getD 1 = 0 then
      Except.error Err.zeroDivisionError
    else
      Except.ok (ps.place_params.place_transmission /
        (ps.place_params.mean_group_size.get?
          (place.place_type.value - 1)).getD 1 *
        person_inf infector time)

/-- The social-distancing factor applied by PlaceInfection.place_susc: the
place-type-indexed enhanced or standard susceptibility reduction when the
microcell distancing gate fires, else 1.  The list index is not guarded. -/
def distancing_place_factor (ps : Parameters) (place : Place)
    (infector : Person) (time : ℚ) : Except Err ℚ :=
  if ts_active infector.microcell.distancing_start_time time then
    match dictGet ps.intervention_params.social_distancing with
    | Except.error e => Except.error e
    | Except.ok sd =>
      if infector.distancing_enhanced then
        listGet sd.distancing_place_enhanced_susc (place.place_type.value - 1)
      else
        listGet sd.distancing_place_susc (place.place_type.value - 1)
  else Except.ok 1

/-- PlaceInfection.place_susc: baseline 1.0, conditionally multiplied by
the distancing factor. -/
def place_susc (ps : Parameters) (place : Place)
    (infector _infectee : Person) (time : ℚ) : Except Err ℚ :=
  match distancing_place_factor ps place infector time with
  | Except.error e => Except.error e
  | Except.ok f => Except.ok (1 * f)

/-- The isolating conditional factor of PlaceInfection.place_foi. -/
def isolation_place_factor (ps : Parameters) (infector : Person) (time : ℚ) :
    Except Err ℚ :=
  if ts_active infector.isolation_start_time time then
    match dictGet ps.intervention_params.case_isolation with
    | Except.error e => Except.error e
    | Except.ok ci => Except.ok ci.isolation_effectiveness
  else Except.ok 1

/-- The quarantine conditional factor of PlaceInfection.place_foi: the
place-type-indexed quarantine_place_effectiveness entry, with an
unguarded list index. -/
def quarantine_place_factor (ps : Parameters) (place : Place)
    (infector : Person) (time : ℚ) : Except Err ℚ :=
  if ts_active infector.quarantine_start_time time then
    match dictGet ps.intervention_params.household_quarantine with
    | Except.error e => Except.error e
    | Except.ok hq =>
      listGet hq.quarantine_place_effectiveness (place.place_type.value - 1)
  else Except.ok 1

/-- The carehome_scale_susc value of PlaceInfection.place_foi: the worker
group scaling when the place is of type 5 and either party is a key
worker, else 1. -/
def carehome_place_scale (ps : Parameters) (place : Place)
    (infector infectee : Person) : ℚ :=
  if place.place_type.value == 5 &&
      (infectee.key_worker || infector.key_worker) then
    ps.carehome_params.carehome_worker_group_scaling
  else 1

/-- PlaceInfection.place_foi.  The quarantine factor multiplies both the
infectiousness side and the susceptibility side; the carehome worker
scaling applies for place type 5 when either party is a key worker. -/
def place_foi (ps : Parameters) (place : Place) (infector infectee : Person)
    (time : ℚ) : Except Err ℚ :=
  match isolation_place_factor ps infector time with
  | Except.error e => Except.error e
  | Except.ok isolating =>
    match quarantine_place_factor ps place infector time with
    | Except.error e => Except.error e
    | Except.ok quarantine =>
      match place_inf ps place infector time with
      | Except.error e => Except.error e
      | Except.ok pinf =>
        match place_susc ps place infector infectee time with
        | Except.error e => Except.error e
        | Except.ok psusc =>
          Except.ok
            ((pinf * isolating * quarantine) *
              (psusc * carehome_place_scale ps place infector infectee *
                quarantine))

/-- Replace the place_closure component of the intervention configuration. -/
def set_place_closure (ps : Parameters) (pc : Option PlaceClosureParams) :
    Parameters :=
  { ps with intervention_params :=
      { ps.intervention_params with place_closure := pc } }

/-- Replace the social_distancing component of the intervention
configuration. -/
def set_social_distancing (ps : Parameters)
    (sd : Option SocialDistancingParams) : Parameters :=
  { ps with intervention_params :=
      { ps.intervention_params with social_distancing := sd } }

/-- Replace the case_isolation component of the intervention configuration. -/
def set_case_isolation (ps : Parameters) (ci : Option CaseIsolationParams) :
    Parameters :=
  { ps with intervention_params :=
      { ps.intervention_params with case_isolation := ci } }

/-- Replace the household_quarantine component of the intervention
configuration. -/
def set_household_quarantine (ps : Parameters)
    (hq : Option HouseholdQuarantineParams) : Parameters :=
  { ps with intervention_params :=
      { ps.intervention_params with household_quarantine := hq } }

/-- The same person with the case-isolation intervention deactivated
(isolation_start_time attribute removed). -/
def clear_isolation (p : Person) : Person :=
  { p with isolation_start_time := none }

/-- The same person with the household-quarantine intervention deactivated
(quarantine_start_time attribute removed). -/
def clear_quarantine (p : Person) : Person :=
  { p with quarantine_start_time := none }

/-- The same person with the social-distancing intervention deactivated
(the microcell's distancing_start_time attribute removed). -/
def clear_distancing (p : Person) : Person :=
  { p with microcell := { p.microcell with distancing_start_time := none } }

/-- All configured parameter values are non-negative: transmission rates,
group sizes, carehome scalings and every configured intervention factor. -/
structure ParamsNonneg (ps : Parameters) : Prop where
  transmission_nonneg : 0 ≤ ps.household_transmission
  place_transmission_nonneg : 0 ≤ ps.place_params.place_transmission
  group_size_nonneg : ∀ x ∈ ps.place_params.mean_group_size, 0 ≤ x
  resident_scaling_nonneg :
    0 ≤ ps.carehome_params.carehome_resident_household_scaling
  worker_scaling_nonneg :
    0 ≤ ps.carehome_params.carehome_worker_group_scaling
  closure_nonneg : ∀ pc ∈ ps.intervention_params.place_closure,
    0 ≤ pc.closure_household_infectiousness
  distancing_nonneg : ∀ sd ∈ ps.intervention_params.social_distancing,
    0 ≤ sd.distancing_house_susc ∧
    0 ≤ sd.distancing_house_enhanced_susc ∧
    (∀ x ∈ sd.distancing_place_susc, 0 ≤ x) ∧
    (∀ x ∈ sd.distancing_place_enhanced_susc, 0 ≤ x)
  isolation_nonneg : ∀ ci ∈ ps.intervention_params.case_isolation,
    0 ≤ ci.isolation_effectiveness ∧ 0 ≤ ci.isolation_house_effectiveness
  quarantine_nonneg : ∀ hq ∈ ps.intervention_params.household_quarantine,
    0 ≤ hq.quarantine_house_effectiveness ∧
    (∀ x ∈ hq.quarantine_place_effectiveness, 0 ≤ x)

/-- Every configured intervention effect factor is at most 1 (effect
factors are drawn from the unit interval). -/
structure FactorsLeOne (ps : Parameters) : Prop where
  closure_le_one : ∀ pc ∈ ps.intervention_params.place_closure,
    pc.closure_household_infectiousness ≤ 1
  distancing_le_one : ∀ sd ∈ ps.intervention_params.social_distancing,
    sd.distancing_house_susc ≤ 1 ∧
    sd.distancing_house_enhanced_susc ≤ 1 ∧
    (∀ x ∈ sd.distancing_place_susc, x ≤ 1) ∧
    (∀ x ∈ sd.distancing_place_enhanced_susc, x ≤ 1)
  isolation_le_one : ∀ ci ∈ ps.intervention_params.case_isolation,
    ci.isolation_effectiveness ≤ 1 ∧ ci.isolation_house_effectiveness ≤ 1
  quarantine_le_one : ∀ hq ∈ ps.intervention_params.household_quarantine,
    hq.quarantine_house_effectiveness ≤ 1 ∧
    (∀ x ∈ hq.quarantine_place_effectiveness, x ≤ 1)

/-- The person's baseline personal curves are non-negative. -/
structure PersonNonneg (p : Person) : Prop where
  inf_nonneg : ∀ t, 0 ≤ p.inf_curve t
  susc_nonneg : ∀ t, 0 ≤ p.susc_curve t

/-- A microcell with neither intervention attribute set. -/
def mc_plain : Microcell :=
  { closure_start_time := none, distancing_start_time := none }

/-- A baseline person: no intervention timestamps, unit personal curves,
no place-of-interest. -/
def person_plain : Person :=
  { microcell := mc_plain
    isolation_start_time := none
    quarantine_start_time := none
    distancing_enhanced := false
    care_home_resident := false
    key_worker := false
    place_types := []
    inf_curve := fun _ => 1
    susc_curve := fun _ => 1 }

/-- An intervention configuration with no intervention group configured. -/
def iv_empty : InterventionParams :=
  { place_closure := none
    social_distancing := none
    case_isolation := none
    household_quarantine := none }

/-- A fully configured intervention set with effect factors 1/2 (and a
closure_place_type matching place type 2 only). -/
def iv_full : InterventionParams :=
  { place_closure := some
      { closure_place_type := [2], closure_household_infectiousness := 1/2 }
    social_distancing := some
      { distancing_house_susc := 1/2, distancing_house_enhanced_susc := 1/4
        distancing_place_susc := [1/2], distancing_place_enhanced_susc := [1/4] }
    case_isolation := some
      { isolation_effectiveness := 1/2, isolation_house_effectiveness := 1/2 }
    household_quarantine := some
      { quarantine_house_effectiveness := 1/2
        quarantine_place_effectiveness := [1/2] } }

/-- Parameters for the concrete scenarios: household_transmission 1/5,
place transmission 1, a single mean group size 1, unit carehome
scalings. -/
def params_base : Parameters :=
  { household_transmission := 1/5
    place_params := { place_transmission := 1, mean_group_size := [1] }
    carehome_params :=
      { carehome_resident_household_scaling := 1
        carehome_worker_group_scaling := 1 }
    intervention_params := iv_empty }

/-- params_base with every intervention group configured (factors 1/2). -/
def params_full : Parameters :=
  { params_base with intervention_params := iv_full }

/-- A place of type 1 (index 0). -/
def place_one : Place := { place_type := { value := 1 } }

/-- A person in a microcell with an active place-closure timestamp whose
place-of-interest (type 2) matches the closure_place_type of iv_full. -/
def person_closed : Person :=
  { person_plain with
    microcell := { mc_plain with closure_start_time := some (some 0) }
    place_types := [2] }

/-- A person in a microcell with an active place-closure timestamp whose
place-of-interest (type 1) does not match the closure_place_type of
iv_full. -/
def person_mismatch : Person :=
  { person_plain with
    microcell := { mc_plain with closure_start_time := some (some 0) }
    place_types := [1] }

/-- A person in a microcell with an active social-distancing timestamp. -/
def person_dist : Person :=
  { person_plain with
    microcell := { mc_plain with distancing_start_time := some (some 0) } }

/-- A person with an active household-quarantine timestamp. -/
def person_quar : Person :=
  { person_plain with quarantine_start_time := some (some 0) }

/-- A person with personal infectiousness 2. -/
def person_inf_two : Person :=
  { person_plain with inf_curve := fun _ => 2 }

/-- Parameters with no mean_group_size data configured and place
transmission 1. -/
def params_c6 : Parameters :=
  { params_base with
    place_params := { place_transmission := 1, mean_group_size := [] } }

/-- Parameters with a configured mean group size of 0 for place type 1. -/
def params_zero_group : Parameters :=
  { params_base with
    place_params := { place_transmission := 1, mean_group_size := [0] } }

/-- Parameters whose social-distancing and household-quarantine groups are
configured with empty place-indexed lists. -/
def params_sd_short : Parameters :=
  { params_base with intervention_params :=
      { iv_empty with
        social_distancing := some
          { distancing_house_susc := 1/2
            distancing_house_enhanced_susc := 1/4
            distancing_place_susc := []
            distancing_place_enhanced_susc := [] }
        household_quarantine := some
          { quarantine_house_effectiveness := 1/2
            quarantine_place_effectiveness := [] } } }

/-! Characterization lemmas for the conditional intervention factors. -/

theorem listGet_of_some {l : List ℚ} {i : ℕ} {v : ℚ} (h : l.get? i = some v) :
    listGet l i = Except.ok v := by
  unfold listGet
  rw [h]

theorem listGet_of_none {l : List ℚ} {i : ℕ} (h : l.get? i = none) :
    listGet l i = Except.error Err.indexError := by
  unfold listGet
  rw [h]

theorem isolation_house_factor_inactive {ps : Parameters} {i : Person}
    {time : ℚ} (h : ts_active i.isolation_start_time time = false) :
    isolation_house_factor ps i time = Except.ok 1 := by
  simp [isolation_house_factor, h]

theorem isolation_house_factor_active {ps : Parameters} {i : Person}
    {time : ℚ} {ci : CaseIsolationParams}
    (h : ts_active i.isolation_start_time time = true)
    (hci : ps.intervention_params.case_isolation = some ci) :
    isolation_house_factor ps i time =
      Except.ok ci.isolation_house_effectiveness := by
  simp [isolation_house_factor, h, hci, dictGet]

theorem isolation_place_factor_inactive {ps : Parameters} {i : Person}
    {time : ℚ} (h : ts_active i.isolation_start_time time = false) :
    isolation_place_factor ps i time = Except.ok 1 := by
  simp [isolation_place_factor, h]

theorem isolation_place_factor_active {ps : Parameters} {i : Person}
    {time : ℚ} {ci : CaseIsolationParams}
    (h : ts_active i.isolation_start_time time = true)
    (hci : ps.intervention_params.case_isolation = some ci) :
    isolation_place_factor ps i time =
      Except.ok ci.isolation_effectiveness := by
  simp [isolation_place_factor, h, hci, dictGet]

theorem quarantine_house_factor_inactive {ps : Parameters} {i : Person}
    {time : ℚ} (h : ts_active i.quarantine_start_time time = false) :
    quarantine_house_factor ps i time = Except.ok 1 := by
  simp [quarantine_house_factor, h]

theorem quarantine_house_factor_active {ps : Parameters} {i : Person}
    {time : ℚ} {hq : HouseholdQuarantineParams}
    (h : ts_active i.quarantine_start_time time = true)
    (hhq : ps.intervention_params.household_quarantine = some hq) :
    quarantine_house_factor ps i time =
      Except.ok hq.quarantine_house_effectiveness := by
  simp [quarantine_house_factor, h, hhq, dictGet]

theorem quarantine_place_factor_inactive {ps : Parameters} {place : Place}
    {i : Person} {time : ℚ}
    (h : ts_active i.quarantine_start_time time = false) :
    quarantine_place_factor ps place i time = Except.ok 1 := by
  simp [quarantine_place_factor, h]

theorem quarantine_place_factor_active {ps : Parameters} {place : Place}
    {i : Person} {time : ℚ} {hq : HouseholdQuarantineParams}
    (h : ts_active i.quarantine_start_time time = true)
    (hhq : ps.intervention_params.household_quarantine = some hq) :
    quarantine_place_factor ps place i time =
      listGet hq.quarantine_place_effectiveness
        (place.place_type.value - 1) := by
  simp [quarantine_place_factor, h, hhq, dictGet]

theorem distancing_house_factor_inactive {ps : Parameters} {i : Person}
    {time : ℚ}
    (h : ts_active i.microcell.distancing_start_time time = false) :
    distancing_house_factor ps i time = Except.ok 1 := by
  simp [distancing_house_factor, h]

theorem distancing_house_factor_active {ps : Parameters} {i : Person}
    {time : ℚ} {sd : SocialDistancingParams}
    (h : ts_active i.microcell.distancing_start_time time = true)
    (hsd : ps.intervention_params.social_distancing = some sd) :
    distancing_house_factor ps i time =
      Except.ok (if i.distancing_enhanced then
        sd.distancing_house_enhanced_susc else sd.distancing_house_susc) := by
  cases he : i.distancing_enhanced <;>
    simp [distancing_house_factor, h, hsd, he, dictGet]

theorem distancing_place_factor_inactive {ps : Parameters} {place : Place}
    {i : Person} {time : ℚ}
    (h : ts_active i.microcell.distancing_start_time time = false) :
    distancing_place_factor ps place i time = Except.ok 1 := by
  simp [distancing_place_factor, h]

theorem distancing_place_factor_active {ps : Parameters} {place : Place}
    {i : Person} {time : ℚ} {sd : SocialDistancingParams}
    (h : ts_active i.microcell.distancing_start_time time = true)
    (hsd : ps.intervention_params.social_distancing = some sd) :
    distancing_place_factor ps place i time =
      listGet (if i.distancing_enhanced then
          sd.distancing_place_enhanced_susc else sd.distancing_place_susc)
        (place.place_type.value - 1) := by
  cases he : i.distancing_enhanced <;>
    simp [distancing_place_factor, h, hsd, he, dictGet]

theorem closure_active_absent {ps : Parameters} {i : Person} {time : ℚ}
    (h : i.microcell.closure_start_time = none) :
    closure_active ps i time = Except.ok false := by
  simp [closure_active, h]

theorem closure_active_missing_key {ps : Parameters} {i : Person} {time : ℚ}
    {st : Option ℚ} (h : i.microcell.closure_start_time = some st)
    (hpc : ps.intervention_params.place_closure = none) :
    closure_active ps i time = Except.error Err.keyError := by
  simp [closure_active, h, hpc]

theorem closure_active_nomatch {ps : Parameters} {i : Person} {time : ℚ}
    {st : Option ℚ} {pc : PlaceClosureParams}
    (h : i.microcell.closure_start_time = some st)
    (hpc : ps.intervention_params.place_closure = some pc)
    (hm : is_place_closed i pc.closure_place_type = false) :
    closure_active ps i time = Except.ok false := by
  simp [closure_active, h, hpc, hm]

theorem closure_active_match {ps : Parameters} {i : Person} {time t0 : ℚ}
    {pc : PlaceClosureParams}
    (h : i.microcell.closure_start_time = some (some t0))
    (hpc : ps.intervention_params.place_closure = some pc)
    (hm : is_place_closed i pc.closure_place_type = true) :
    closure_active ps i time = Except.ok (decide (t0 ≤ time)) := by
  simp [closure_active, h, hpc, hm]

theorem closure_inf_factor_off {ps : Parameters} {i : Person} {time : ℚ}
    (h : closure_active ps i time = Except.ok false) :
    closure_inf_factor ps i time = Except.ok 1 := by
  simp [closure_inf_factor, h]

theorem closure_inf_factor_on {ps : Parameters} {i : Person} {time : ℚ}
    {pc : PlaceClosureParams}
    (h : closure_active ps i time = Except.ok true)
    (hpc : ps.intervention_params.place_closure = some pc) :
    closure_inf_factor ps i time =
      Except.ok pc.closure_household_infectiousness := by
  simp [closure_inf_factor, h, hpc, dictGet]

theorem closure_inf_factor_error {ps : Parameters} {i : Person} {time : ℚ}
    {e : Err} (h : closure_active ps i time = Except.error e) :
    closure_inf_factor ps i time = Except.error e := by
  simp [closure_inf_factor, h]

/-! Composition lemmas: each force-of-infection entry point in terms of
its conditional factors. -/

theorem household_inf_of_factor {ps : Parameters} {i : Person} {time c : ℚ}
    (h : closure_inf_factor ps i time = Except.ok c) :
    household_inf ps i time = Except.ok (person_inf i time * c) := by
  simp [household_inf, h]

theorem household_susc_of_factor {ps : Parameters} {i e : Person}
    {time f : ℚ} (h : distancing_house_factor ps i time = Except.ok f) :
    household_susc ps i e time = Except.ok (person_susc i e time * f) := by
  simp [household_susc, h]

theorem place_susc_of_factor {ps : Parameters} {place : Place} {i e : Person}
    {time f : ℚ} (h : distancing_place_factor ps place i time = Except.ok f) :
    place_susc ps place i e time = Except.ok (1 * f) := by
  simp [place_susc, h]

theorem household_foi_intro {ps : Parameters} {i e : Person}
    {time iso q cf df : ℚ}
    (hiso : isolation_house_factor ps i time = Except.ok iso)
    (hq : quarantine_house_factor ps i time = Except.ok q)
    (hcf : closure_inf_factor ps i time = Except.ok cf)
    (hdf : distancing_house_factor ps i time = Except.ok df) :
    household_foi ps i e time = Except.ok
      ((person_inf i time * cf * 1 * ps.household_transmission *
          carehome_house_scale ps i * iso * q) *
        (person_susc i e time * df * carehome_house_scale ps e)) := by
  simp [household_foi, hiso, hq,
    household_inf_of_factor hcf, household_susc_of_factor hdf]

theorem household_foi_ok_elim {ps : Parameters} {i e : Person} {time v : ℚ}
    (h : household_foi ps i e time = Except.ok v) :
    ∃ iso q cf df,
      isolation_house_factor ps i time = Except.ok iso ∧
      quarantine_house_factor ps i time = Except.ok q ∧
      closure_inf_factor ps i time = Except.ok cf ∧
      distancing_house_factor ps i time = Except.ok df ∧
      v = (person_inf i time * cf * 1 * ps.household_transmission *
          carehome_house_scale ps i * iso * q) *
        (person_susc i e time * df * carehome_house_scale ps e) := by
  unfold household_foi household_inf household_susc at h
  cases hiso : isolation_house_factor ps i time with
  | error err => rw [hiso] at h; exact absurd h (by simp)
  | ok iso =>
    rw [hiso] at h
    cases hq : quarantine_house_factor ps i time with
    | error err => rw [hq] at h; exact absurd h (by simp)
    | ok q =>
      rw [hq] at h
      cases hcf : closure_inf_factor ps i time with
      | error err => rw [hcf] at h; exact absurd h (by simp)
      | ok cf =>
        rw [hcf] at h
        cases hdf : distancing_house_factor ps i time with
        | error err => rw [hdf] at h; exact absurd h (by simp)
        | ok df =>
          rw [hdf] at h
          simp at h
          refine ⟨iso, q, cf, df, rfl, rfl, rfl, rfl, ?_⟩
          rw [← h]
          ring

theorem place_inf_closed {ps : Parameters} {place : Place} {i : Person}
    {time : ℚ} (h : closure_active ps i time = Except.ok true) :
    place_inf ps place i time = Except.ok 0 := by
  simp [place_inf, h]

theorem place_inf_open {ps : Parameters} {place : Place} {i : Person}
    {time : ℚ} (h : closure_active ps i time = Except.ok false)
    (hn : (ps.place_params.mean_group_size.get?
        (place.place_type.value - 1)).getD 1 ≠ 0) :
    place_inf ps place i time = Except.ok
      (ps.place_params.place_transmission /
        (ps.place_params.mean_group_size.get?
          (place.place_type.value - 1)).getD 1 *
        person_inf i time) := by
  simp only [place_inf, h]
  rw [if_neg hn]

theorem place_inf_zero_division {ps : Parameters} {place : Place}
    {i : Person} {time : ℚ}
    (h : closure_active ps i time = Except.ok false)
    (hn : (ps.place_params.mean_group_size.get?
        (place.place_type.value - 1)).getD 1 = 0) :
    place_inf ps place i time = Except.error Err.zeroDivisionError := by
  simp only [place_inf, h]
  rw [if_pos hn]

theorem place_inf_ok_elim {ps : Parameters} {place : Place} {i : Person}
    {time v : ℚ} (h : place_inf ps place i time = Except.ok v) :
    (closure_active ps i time = Except.ok true ∧ v = 0) ∨
    (closure_active ps i time = Except.ok false ∧
      (ps.place_params.mean_group_size.get?
        (place.place_type.value - 1)).getD 1 ≠ 0 ∧
      v = ps.place_params.place_transmission /
        (ps.place_params.mean_group_size.get?
          (place.place_type.value - 1)).getD 1 *
        person_inf i time) := by
  unfold place_inf at h
  cases hca : closure_active ps i time with
  | error err => rw [hca] at h; exact absurd h (by simp)
  | ok b =>
    rw [hca] at h
    cases b with
    | true =>
      left
      simp only [] at h
      injection h with h'
      exact ⟨rfl, h'.symm⟩
    | false =>
      right
      simp only [] at h
      by_cases hn : (ps.place_params.mean_group_size.get?
          (place.place_type.value - 1)).getD 1 = 0
      · rw [if_pos hn] at h; exact absurd h (by simp)
      · rw [if_neg hn] at h
        injection h with h'
        exact ⟨rfl, hn, h'.symm⟩

theorem place_foi_intro {ps : Parameters} {place : Place} {i e : Person}
    {time iso q pinf f : ℚ}
    (hiso : isolation_place_factor ps i time = Except.ok iso)
    (hq : quarantine_place_factor ps place i time = Except.ok q)
    (hpi : place_inf ps place i time = Except.ok pinf)
    (hf : distancing_place_factor ps place i time = Except.ok f) :
    place_foi ps place i e time = Except.ok
      ((pinf * iso * q) *
        (1 * f * carehome_place_scale ps place i e * q)) := by
  simp [place_foi, hiso, hq, hpi, place_susc_of_factor hf]

theorem place_foi_ok_elim {ps : Parameters} {place : Place} {i e : Person}
    {time v : ℚ} (h : place_foi ps place i e time = Except.ok v) :
    ∃ iso q pinf f,
      isolation_place_factor ps i time = Except.ok iso ∧
      quarantine_place_factor ps place i time = Except.ok q ∧
      place_inf ps place i time = Except.ok pinf ∧
      distancing_place_factor ps place i time = Except.ok f ∧
      v = (pinf * iso * q) *
        (1 * f * carehome_place_scale ps place i e * q) := by
  unfold place_foi place_susc at h
  cases hiso : isolation_place_factor ps i time with
  | error err => rw [hiso] at h; exact absurd h (by simp)
  | ok iso =>
    rw [hiso] at h
    cases hq : quarantine_place_factor ps place i time with
    | error err => rw [hq] at h; exact absurd h (by simp)
    | ok q =>
      rw [hq] at h
      cases hpi : place_inf ps place i time with
      | error err => rw [hpi] at h; exact absurd h (by simp)
      | ok pinf =>
        rw [hpi] at h
        cases hf : distancing_place_factor ps place i time with
        | error err => rw [hf] at h; exact absurd h (by simp)
        | ok f =>
          rw [hf] at h
          simp at h
          refine ⟨iso, q, pinf, f, rfl, rfl, rfl, rfl, ?_⟩
          rw [← h]
          ring

/-! Range lemmas: under non-negative configured parameters every
successfully computed factor is non-negative, and under unit-interval
effect factors every intervention factor is at most 1. -/

theorem isolation_house_factor_nonneg {ps : Parameters} {i : Person}
    {time v : ℚ} (hnn : ParamsNonneg ps)
    (h : isolation_house_factor ps i time = Except.ok v) : 0 ≤ v := by
  cases hts : ts_active i.isolation_start_time time with
  | false =>
    rw [isolation_house_factor_inactive hts] at h
    injection h with h'
    rw [← h']
    norm_num
  | true =>
    cases hci : ps.intervention_params.case_isolation with
    | none =>
      unfold isolation_house_factor at h
      rw [if_pos hts, hci] at h
      simp [dictGet] at h
    | some ci =>
      rw [isolation_house_factor_active hts hci] at h
      injection h with h'
      rw [← h']
      exact (hnn.isolation_nonneg ci (Option.mem_def.mpr hci)).2

theorem isolation_place_factor_nonneg {ps : Parameters} {i : Person}
    {time v : ℚ} (hnn : ParamsNonneg ps)
    (h : isolation_place_factor ps i time = Except.ok v) : 0 ≤ v := by
  cases hts : ts_active i.isolation_start_time time with
  | false =>
    rw [isolation_place_factor_inactive hts] at h
    injection h with h'
    rw [← h']
    norm_num
  | true =>
    cases hci : ps.intervention_params.case_isolation with
    | none =>
      unfold isolation_place_factor at h
      rw [if_pos hts, hci] at h
      simp [dictGet] at h
    | some ci =>
      rw [isolation_place_factor_active hts hci] at h
      injection h with h'
      rw [← h']
      exact (hnn.isolation_nonneg ci (Option.mem_def.mpr hci)).1

theorem quarantine_house_factor_nonneg {ps : Parameters} {i : Person}
    {time v : ℚ} (hnn : ParamsNonneg ps)
    (h : quarantine_house_factor ps i time = Except.ok v) : 0 ≤ v := by
  cases hts : ts_active i.quarantine_start_time time with
  | false =>
    rw [quarantine_house_factor_inactive hts] at h
    injection h with h'
    rw [← h']
    norm_num
  | true =>
    cases hhq : ps.intervention_params.household_quarantine with
    | none =>
      unfold quarantine_house_factor at h
      rw [if_pos hts, hhq] at h
      simp [dictGet] at h
    | some hq =>
      rw [quarantine_house_factor_active hts hhq] at h
      injection h with h'
      rw [← h']
      exact (hnn.quarantine_nonneg hq (Option.mem_def.mpr hhq)).1

theorem listGet_ok_mem {l : List ℚ} {k : ℕ} {v : ℚ}
    (h : listGet l k = Except.ok v) : v ∈ l := by
  unfold listGet at h
  cases hg : l.get? k with
  | none => rw [hg] at h; exact absurd h (by simp)
  | some w =>
    rw [hg] at h
    injection h with h'
    rw [← h']
    exact List.get?_mem hg

theorem quarantine_place_factor_nonneg {ps : Parameters} {place : Place}
    {i : Person} {time v : ℚ} (hnn : ParamsNonneg ps)
    (h : quarantine_place_factor ps place i time = Except.ok v) : 0 ≤ v := by
  cases hts : ts_active i.quarantine_start_time time with
  | false =>
    rw [quarantine_place_factor_inactive hts] at h
    injection h with h'
    rw [← h']
    norm_num
  | true =>
    cases hhq : ps.intervention_params.household_quarantine with
    | none =>
      unfold quarantine_place_factor at h
      rw [if_pos hts, hhq] at h
      simp [dictGet] at h
    | some hq =>
      rw [quarantine_place_factor_active hts hhq] at h
      exact (hnn.quarantine_nonneg hq (Option.mem_def.mpr hhq)).2 v
        (listGet_ok_mem h)

theorem distancing_house_factor_nonneg {ps : Parameters} {i : Person}
    {time v : ℚ} (hnn : ParamsNonneg ps)
    (h : distancing_house_factor ps i time = Except.ok v) : 0 ≤ v := by
  cases hts : ts_active i.microcell.distancing_start_time time with
  | false =>
    rw [distancing_house_factor_inactive hts] at h
    injection h with h'
    rw [← h']
    norm_num
  | true =>
    cases hsd : ps.intervention_params.social_distancing with
    | none =>
      unfold distancing_house_factor at h
      rw [if_pos hts, hsd] at h
      simp [dictGet] at h
    | some sd =>
      rw [distancing_house_factor_active hts hsd] at h
      injection h with h'
      rw [← h']
      have hmem := hnn.distancing_nonneg sd (Option.mem_def.mpr hsd)
      cases i.distancing_enhanced with
      | true => simpa using hmem.2.1
      | false => simpa using hmem.1

theorem distancing_place_factor_nonneg {ps : Parameters} {place : Place}
    {i : Person} {time v : ℚ} (hnn : ParamsNonneg ps)
    (h : distancing_place_factor ps place i time = Except.ok v) : 0 ≤ v := by
  cases hts : ts_active i.microcell.distancing_start_time time with
  | false =>
    rw [distancing_place_factor_inactive hts] at h
    injection h with h'
    rw [← h']
    norm_num
  | true =>
    cases hsd : ps.intervention_params.social_distancing with
    | none =>
      unfold distancing_place_factor at h
      rw [if_pos hts, hsd] at h
      simp [dictGet] at h
    | some sd =>
      rw [distancing_place_factor_active hts hsd] at h
      have hmem := hnn.distancing_nonneg sd (Option.mem_def.mpr hsd)
      cases he : i.distancing_enhanced with
      | true =>
        rw [he] at h
        simp only [if_pos] at h
        exact hmem.2.2.2 v (listGet_ok_mem h)
      | false =>
        rw [he] at h
        simp only [Bool.false_eq_true, if_neg] at h
        exact hmem.2.2.1 v (listGet_ok_mem h)

theorem closure_inf_factor_nonneg {ps : Parameters} {i : Person}
    {time v : ℚ} (hnn : ParamsNonneg ps)
    (h : closure_inf_factor ps i time = Except.ok v) : 0 ≤ v := by
  unfold closure_inf_factor at h
  cases hca : closure_active ps i time with
  | error err => rw [hca] at h; exact absurd h (by simp)
  | ok b =>
    rw [hca] at h
    cases b with
    | false =>
      simp only [] at h
      injection h with h'
      rw [← h']
      norm_num
    | true =>
      cases hpc : ps.intervention_params.place_closure with
      | none => rw [hpc] at h; simp [dictGet] at h
      | some pc =>
        rw [hpc] at h
        simp only [dictGet] at h
        injection h with h'
        rw [← h']
        exact hnn.closure_nonneg pc (Option.mem_def.mpr hpc)

theorem carehome_house_scale_nonneg {ps : Parameters} {p : Person}
    (hnn : ParamsNonneg ps) : 0 ≤ carehome_house_scale ps p := by
  unfold carehome_house_scale
  by_cases hc : p.care_home_resident = true
  · rw [if_pos hc]
    exact hnn.resident_scaling_nonneg
  · rw [if_neg hc]
    norm_num

theorem carehome_place_scale_nonneg {ps : Parameters} {place : Place}
    {i e : Person} (hnn : ParamsNonneg ps) :
    0 ≤ carehome_place_scale ps place i e := by
  unfold carehome_place_scale
  by_cases hc : (place.place_type.value == 5 &&
      (e.key_worker || i.key_worker)) = true
  · rw [if_pos hc]
    exact hnn.worker_scaling_nonneg
  · rw [if_neg hc]
    norm_num

theorem groups_getD_nonneg {ps : Parameters} {k : ℕ}
    (hnn : ParamsNonneg ps) :
    0 ≤ (ps.place_params.mean_group_size.get? k).getD 1 := by
  cases hg : ps.place_params.mean_group_size.get? k with
  | none => norm_num
  | some x =>
    simp only [Option.getD_some]
    exact hnn.group_size_nonneg x (List.get?_mem hg)

theorem isolation_house_factor_le_one {ps : Parameters} {i : Person}
    {time v : ℚ} (hle : FactorsLeOne ps)
    (h : isolation_house_factor ps i time = Except.ok v) : v ≤ 1 := by
  cases hts : ts_active i.isolation_start_time time with
  | false =>
    rw [isolation_house_factor_inactive hts] at h
    injection h with h'
    rw [← h']
  | true =>
    cases hci : ps.intervention_params.case_isolation with
    | none =>
      unfold isolation_house_factor at h
      rw [if_pos hts, hci] at h
      simp [dictGet] at h
    | some ci =>
      rw [isolation_house_factor_active hts hci] at h
      injection h with h'
      rw [← h']
      exact (hle.isolation_le_one ci (Option.mem_def.mpr hci)).2

theorem isolation_place_factor_le_one {ps : Parameters} {i : Person}
    {time v : ℚ} (hle : FactorsLeOne ps)
    (h : isolation_place_factor ps i time = Except.ok v) : v ≤ 1 := by
  cases hts : ts_active i.isolation_start_time time with
  | false =>
    rw [isolation_place_factor_inactive hts] at h
    injection h with h'
    rw [← h']
  | true =>
    cases hci : ps.intervention_params.case_isolation with
    | none =>
      unfold isolation_place_factor at h
      rw [if_pos hts, hci] at h
      simp [dictGet] at h
    | some ci =>
      rw [isolation_place_factor_active hts hci] at h
      injection h with h'
      rw [← h']
      exact (hle.isolation_le_one ci (Option.mem_def.mpr hci)).1

theorem quarantine_house_factor_le_one {ps : Parameters} {i : Person}
    {time v : ℚ} (hle : FactorsLeOne ps)
    (h : quarantine_house_factor ps i time = Except.ok v) : v ≤ 1 := by
  cases hts : ts_active i.quarantine_start_time time with
  | false =>
    rw [quarantine_house_factor_inactive hts] at h
    injection h with h'
    rw [← h']
  | true =>
    cases hhq : ps.intervention_params.household_quarantine with
    | none =>
      unfold quarantine_house_factor at h
      rw [if_pos hts, hhq] at h
      simp [dictGet] at h
    | some hq =>
      rw [quarantine_house_factor_active hts hhq] at h
      injection h with h'
      rw [← h']
      exact (hle.quarantine_le_one hq (Option.mem_def.mpr hhq)).1

theorem quarantine_place_factor_le_one {ps : Parameters} {place : Place}
    {i : Person} {time v : ℚ} (hle : FactorsLeOne ps)
    (h : quarantine_place_factor ps place i time = Except.ok v) : v ≤ 1 := by
  cases hts : ts_active i.quarantine_start_time time with
  | false =>
    rw [quarantine_place_factor_inactive hts] at h
    injection h with h'
    rw [← h']
  | true =>
    cases hhq : ps.intervention_params.household_quarantine with
    | none =>
      unfold quarantine_place_factor at h
      rw [if_pos hts, hhq] at h
      simp [dictGet] at h
    | some hq =>
      rw [quarantine_place_factor_active hts hhq] at h
      exact (hle.quarantine_le_one hq (Option.mem_def.mpr hhq)).2 v
        (listGet_ok_mem h)

theorem distancing_house_factor_le_one {ps : Parameters} {i : Person}
    {time v : ℚ} (hle : FactorsLeOne ps)
    (h : distancing_house_factor ps i time = Except.ok v) : v ≤ 1 := by
  cases hts : ts_active i.microcell.distancing_start_time time with
  | false =>
    rw [distancing_house_factor_inactive hts] at h
    injection h with h'
    rw [← h']
  | true =>
    cases hsd : ps.intervention_params.social_distancing with
    | none =>
      unfold distancing_house_factor at h
      rw [if_pos hts, hsd] at h
      simp [dictGet] at h
    | some sd =>
      rw [distancing_house_factor_active hts hsd] at h
      injection h with h'
      rw [← h']
      have hmem := hle.distancing_le_one sd (Option.mem_def.mpr hsd)
      cases i.distancing_enhanced with
      | true => simpa using hmem.2.1
      | false => simpa using hmem.1

theorem distancing_place_factor_le_one {ps : Parameters} {place : Place}
    {i : Person} {time v : ℚ} (hle : FactorsLeOne ps)
    (h : distancing_place_factor ps place i time = Except.ok v) : v ≤ 1 := by
  cases hts : ts_active i.microcell.distancing_start_time time with
  | false =>
    rw [distancing_place_factor_inactive hts] at h
    injection h with h'
    rw [← h']
  | true =>
    cases hsd : ps.intervention_params.social_distancing with
    | none =>
      unfold distancing_place_factor at h
      rw [if_pos hts, hsd] at h
      simp [dictGet] at h
    | some sd =>
      rw [distancing_place_factor_active hts hsd] at h
      have hmem := hle.distancing_le_one sd (Option.mem_def.mpr hsd)
      cases he : i.distancing_enhanced with
      | true =>
        rw [he] at h
        simp only [if_pos] at h
        exact hmem.2.2.2 v (listGet_ok_mem h)
      | false =>
        rw [he] at h
        simp only [Bool.false_eq_true, if_neg] at h
        exact hmem.2.2.1 v (listGet_ok_mem h)

/-! Scaling lemmas: with one intervention modifier active, the
force-of-infection equals the modifier's factor (squared for the place
quarantine factor) times the value computed with that modifier removed. -/

theorem household_foi_isolation_scale {ps : Parameters} {i e : Person}
    {time v : ℚ} {ci : CaseIsolationParams}
    (hts : ts_active i.isolation_start_time time = true)
    (hci : ps.intervention_params.case_isolation = some ci)
    (hv : household_foi ps (clear_isolation i) e time = Except.ok v) :
    household_foi ps i e time =
      Except.ok (ci.isolation_house_effectiveness * v) := by
  obtain ⟨iso0, q, cf, df, hiso0, hq, hcf, hdf, hveq⟩ := household_foi_ok_elim hv
  rw [@isolation_house_factor_inactive ps (clear_isolation i) time rfl] at hiso0
  injection hiso0 with hiso0'
  have hq' : quarantine_house_factor ps i time = Except.ok q := hq
  have hcf' : closure_inf_factor ps i time = Except.ok cf := hcf
  have hdf' : distancing_house_factor ps i time = Except.ok df := hdf
  rw [household_foi_intro (isolation_house_factor_active hts hci) hq' hcf' hdf']
  refine congrArg Except.ok ?_
  rw [hveq, ← hiso0',
    show person_inf (clear_isolation i) time = person_inf i time from rfl,
    show person_susc (clear_isolation i) e time = person_susc i e time from rfl,
    show carehome_house_scale ps (clear_isolation i) =
      carehome_house_scale ps i from rfl]
  ring

theorem household_foi_quarantine_scale {ps : Parameters} {i e : Person}
    {time v : ℚ} {hq : HouseholdQuarantineParams}
    (hts : ts_active i.quarantine_start_time time = true)
    (hhq : ps.intervention_params.household_quarantine = some hq)
    (hv : household_foi ps (clear_quarantine i) e time = Except.ok v) :
    household_foi ps i e time =
      Except.ok (hq.quarantine_house_effectiveness * v) := by
  obtain ⟨iso, q0, cf, df, hiso, hq0, hcf, hdf, hveq⟩ := household_foi_ok_elim hv
  rw [@quarantine_house_factor_inactive ps (clear_quarantine i) time rfl] at hq0
  injection hq0 with hq0'
  have hiso' : isolation_house_factor ps i time = Except.ok iso := hiso
  have hcf' : closure_inf_factor ps i time = Except.ok cf := hcf
  have hdf' : distancing_house_factor ps i time = Except.ok df := hdf
  rw [household_foi_intro hiso' (quarantine_house_factor_active hts hhq)
    hcf' hdf']
  refine congrArg Except.ok ?_
  rw [hveq, ← hq0',
    show person_inf (clear_quarantine i) time = person_inf i time from rfl,
    show person_susc (clear_quarantine i) e time = person_susc i e time
      from rfl,
    show carehome_house_scale ps (clear_quarantine i) =
      carehome_house_scale ps i from rfl]
  ring

theorem household_foi_distancing_scale {ps : Parameters} {i e : Person}
    {time v : ℚ} {sd : SocialDistancingParams}
    (hts : ts_active i.microcell.distancing_start_time time = true)
    (hsd : ps.intervention_params.social_distancing = some sd)
    (hv : household_foi ps (clear_distancing i) e time = Except.ok v) :
    household_foi ps i e time =
      Except.ok ((if i.distancing_enhanced then
        sd.distancing_house_enhanced_susc else sd.distancing_house_susc)
        * v) := by
  obtain ⟨iso, q, cf, df, hiso, hq, hcf, hdf, hveq⟩ := household_foi_ok_elim hv
  rw [@distancing_house_factor_inactive ps (clear_distancing i) time rfl] at hdf
  injection hdf with hdf'
  have hiso' : isolation_house_factor ps i time = Except.ok iso := hiso
  have hq' : quarantine_house_factor ps i time = Except.ok q := hq
  have hcf' : closure_inf_factor ps i time = Except.ok cf := hcf
  rw [household_foi_intro hiso' hq' hcf'
    (distancing_house_factor_active hts hsd)]
  refine congrArg Except.ok ?_
  rw [hveq, ← hdf',
    show person_inf (clear_distancing i) time = person_inf i time from rfl,
    show person_susc (clear_distancing i) e time = person_susc i e time
      from rfl,
    show carehome_house_scale ps (clear_distancing i) =
      carehome_house_scale ps i from rfl]
  ring

theorem place_foi_isolation_scale {ps : Parameters} {place : Place}
    {i e : Person} {time v : ℚ} {ci : CaseIsolationParams}
    (hts : ts_active i.isolation_start_time time = true)
    (hci : ps.intervention_params.case_isolation = some ci)
    (hv : place_foi ps place (clear_isolation i) e time = Except.ok v) :
    place_foi ps place i e time =
      Except.ok (ci.isolation_effectiveness * v) := by
  obtain ⟨iso0, q, pinf, f, hiso0, hq, hpi, hf, hveq⟩ := place_foi_ok_elim hv
  rw [@isolation_place_factor_inactive ps (clear_isolation i) time rfl] at hiso0
  injection hiso0 with hiso0'
  have hq' : quarantine_place_factor ps place i time = Except.ok q := hq
  have hpi' : place_inf ps place i time = Except.ok pinf := hpi
  have hf' : distancing_place_factor ps place i time = Except.ok f := hf
  rw [place_foi_intro (isolation_place_factor_active hts hci) hq' hpi' hf']
  refine congrArg Except.ok ?_
  rw [hveq, ← hiso0',
    show carehome_place_scale ps place (clear_isolation i) e =
      carehome_place_scale ps place i e from rfl]
  ring

theorem place_foi_quarantine_scale {ps : Parameters} {place : Place}
    {i e : Person} {time v qv : ℚ} {hq : HouseholdQuarantineParams}
    (hts : ts_active i.quarantine_start_time time = true)
    (hhq : ps.intervention_params.household_quarantine = some hq)
    (hqv : hq.quarantine_place_effectiveness.get?
      (place.place_type.value - 1) = some qv)
    (hv : place_foi ps place (clear_quarantine i) e time = Except.ok v) :
    place_foi ps place i e time = Except.ok (qv * qv * v) := by
  obtain ⟨iso, q0, pinf, f, hiso, hq0, hpi, hf, hveq⟩ := place_foi_ok_elim hv
  rw [@quarantine_place_factor_inactive ps place (clear_quarantine i) time rfl] at hq0
  injection hq0 with hq0'
  have hiso' : isolation_place_factor ps i time = Except.ok iso := hiso
  have hpi' : place_inf ps place i time = Except.ok pinf := hpi
  have hf' : distancing_place_factor ps place i time = Except.ok f := hf
  have hqf : quarantine_place_factor ps place i time = Except.ok qv := by
    rw [quarantine_place_factor_active hts hhq]
    exact listGet_of_some hqv
  rw [place_foi_intro hiso' hqf hpi' hf']
  refine congrArg Except.ok ?_
  rw [hveq, ← hq0',
    show carehome_place_scale ps place (clear_quarantine i) e =
      carehome_place_scale ps place i e from rfl]
  ring

theorem place_foi_distancing_scale {ps : Parameters} {place : Place}
    {i e : Person} {time v dv : ℚ} {sd : SocialDistancingParams}
    (hts : ts_active i.microcell.distancing_start_time time = true)
    (hsd : ps.intervention_params.social_distancing = some sd)
    (hdv : (if i.distancing_enhanced then sd.distancing_place_enhanced_susc
      else sd.distancing_place_susc).get?
      (place.place_type.value - 1) = some dv)
    (hv : place_foi ps place (clear_distancing i) e time = Except.ok v) :
    place_foi ps place i e time = Except.ok (dv * v) := by
  obtain ⟨iso, q, pinf, f0, hiso, hq, hpi, hf0, hveq⟩ := place_foi_ok_elim hv
  rw [@distancing_place_factor_inactive ps place (clear_distancing i) time rfl] at hf0
  injection hf0 with hf0'
  have hiso' : isolation_place_factor ps i time = Except.ok iso := hiso
  have hq' : quarantine_place_factor ps place i time = Except.ok q := hq
  have hpi' : place_inf ps place i time = Except.ok pinf := hpi
  have hdf : distancing_place_factor ps place i time = Except.ok dv := by
    rw [distancing_place_factor_active hts hsd]
    exact listGet_of_some hdv
  rw [place_foi_intro hiso' hq' hpi' hdf]
  refine congrArg Except.ok ?_
  rw [hveq, ← hf0',
    show carehome_place_scale ps place (clear_distancing i) e =
      carehome_place_scale ps place i e from rfl]
  ring

/-! Error propagation and congruence helpers. -/

theorem household_inf_error {ps : Parameters} {i : Person} {time : ℚ}
    {e : Err} (h : closure_inf_factor ps i time = Except.error e) :
    household_inf ps i time = Except.error e := by
  simp [household_inf, h]

theorem place_inf_error {ps : Parameters} {place : Place} {i : Person}
    {time : ℚ} {e : Err}
    (h : closure_active ps i time = Except.error e) :
    place_inf ps place i time = Except.error e := by
  simp [place_inf, h]

theorem place_susc_error {ps : Parameters} {place : Place} {i e : Person}
    {time : ℚ} {err : Err}
    (h : distancing_place_factor ps place i time = Except.error err) :
    place_susc ps place i e time = Except.error err := by
  simp [place_susc, h]

theorem household_foi_factor_congr {ps' ps : Parameters} {i e : Person}
    {time : ℚ}
    (h1 : isolation_house_factor ps' i time =
      isolation_house_factor ps i time)
    (h2 : quarantine_house_factor ps' i time =
      quarantine_house_factor ps i time)
    (h3 : closure_inf_factor ps' i time = closure_inf_factor ps i time)
    (h4 : distancing_house_factor ps' i time =
      distancing_house_factor ps i time)
    (h5 : ps'.household_transmission = ps.household_transmission)
    (h6 : carehome_house_scale ps' i = carehome_house_scale ps i)
    (h7 : carehome_house_scale ps' e = carehome_house_scale ps e) :
    household_foi ps' i e time = household_foi ps i e time := by
  unfold household_foi household_inf household_susc
  rw [h1, h2, h3, h4, h5, h6, h7]

theorem place_foi_factor_congr {ps' ps : Parameters} {place : Place}
    {i e : Person} {time : ℚ}
    (h1 : isolation_place_factor ps' i time = isolation_place_factor ps i time)
    (h2 : quarantine_place_factor ps' place i time =
      quarantine_place_factor ps place i time)
    (h3 : place_inf ps' place i time = place_inf ps place i time)
    (h4 : distancing_place_factor ps' place i time =
      distancing_place_factor ps place i time)
    (h5 : carehome_place_scale ps' place i e =
      carehome_place_scale ps place i e) :
    place_foi ps' place i e time = place_foi ps place i e time := by
  unfold place_foi place_susc
  rw [h1, h2, h3, h4, h5]

theorem place_inf_congr {ps' ps : Parameters} {place : Place} {i : Person}
    {time : ℚ}
    (h1 : closure_active ps' i time = closure_active ps i time)
    (h2 : ps'.place_params = ps.place_params) :
    place_inf ps' place i time = place_inf ps place i time := by
  unfold place_inf
  rw [h1, h2]

/-! Non-negativity of the force-of-infection entry points. -/

theorem household_foi_nonneg {ps : Parameters} {i e : Person} {time v : ℚ}
    (hnn : ParamsNonneg ps) (hi : PersonNonneg i) (he : PersonNonneg e)
    (h : household_foi ps i e time = Except.ok v) : 0 ≤ v := by
  obtain ⟨iso, q, cf, df, hiso, hq, hcf, hdf, hveq⟩ := household_foi_ok_elim h
  rw [hveq]
  exact mul_nonneg
    (mul_nonneg
      (mul_nonneg
        (mul_nonneg
          (mul_nonneg
            (mul_nonneg (mul_nonneg (hi.inf_nonneg time)
              (closure_inf_factor_nonneg hnn hcf)) zero_le_one)
            hnn.transmission_nonneg)
          (carehome_house_scale_nonneg hnn))
        (isolation_house_factor_nonneg hnn hiso))
      (quarantine_house_factor_nonneg hnn hq))
    (mul_nonneg
      (mul_nonneg (he.susc_nonneg time)
        (distancing_house_factor_nonneg hnn hdf))
      (carehome_house_scale_nonneg hnn))

theorem place_inf_nonneg {ps : Parameters} {place : Place} {i : Person}
    {time v : ℚ} (hnn : ParamsNonneg ps) (hi : PersonNonneg i)
    (h : place_inf ps place i time = Except.ok v) : 0 ≤ v := by
  rcases place_inf_ok_elim h with ⟨_, hv0⟩ | ⟨_, _, hveq⟩
  · rw [hv0]
  · rw [hveq]
    exact mul_nonneg
      (div_nonneg hnn.place_transmission_nonneg (groups_getD_nonneg hnn))
      (hi.inf_nonneg time)

theorem place_foi_nonneg {ps : Parameters} {place : Place} {i e : Person}
    {time v : ℚ} (hnn : ParamsNonneg ps) (hi : PersonNonneg i)
    (h : place_foi ps place i e time = Except.ok v) : 0 ≤ v := by
  obtain ⟨iso, q, pinf, f, hiso, hq, hpi, hf, hveq⟩ := place_foi_ok_elim h
  rw [hveq]
  exact mul_nonneg
    (mul_nonneg
      (mul_nonneg (place_inf_nonneg hnn hi hpi)
        (isolation_place_factor_nonneg hnn hiso))
      (quarantine_place_factor_nonneg hnn hq))
    (mul_nonneg
      (mul_nonneg
        (mul_nonneg zero_le_one (distancing_place_factor_nonneg hnn hf))
        (carehome_place_scale_nonneg hnn))
      (quarantine_place_factor_nonneg hnn hq))

/-! Concrete instances of the range predicates for the fixtures. -/

theorem params_base_nonneg : ParamsNonneg params_base := by
  constructor <;> simp [params_base, iv_empty]

theorem params_full_nonneg : ParamsNonneg params_full := by
  constructor <;> simp [params_full, params_base, iv_full]

theorem params_full_le_one : FactorsLeOne params_full := by
  constructor <;> simp [params_full, params_base, iv_full] <;> norm_num

theorem person_plain_nonneg : PersonNonneg person_plain := by
  constructor <;> intro t <;> simp [person_plain]

/-! Claim theorems. -/

/-- C5: for a household with household_transmission 0.2 (= 1/5), an
infector with personal infectiousness 1, an infectee with personal
susceptibility 1, no active interventions and no care-home residency,
household_foi returns exactly 0.2. -/
theorem C5_household_foi_concrete :
    household_foi params_base person_plain person_plain 1 =
      Except.ok (1/5) := by
  norm_num [household_foi, isolation_house_factor, quarantine_house_factor,
    household_inf, household_susc, closure_inf_factor, closure_active,
    distancing_house_factor, ts_active, person_inf, person_susc,
    carehome_house_scale, params_base, person_plain, mc_plain, iv_empty,
    dictGet]

/-- C6: a place type with no mean_group_size entry gets the default group
size 1, so place_inf is the place transmission divided by 1 times the
infector's personal infectiousness (witnessed concretely: transmission 1
and personal infectiousness 2 give exactly 2). -/
theorem C6_missing_group_size_defaults (ps : Parameters) (place : Place)
    (i : Person) (time : ℚ)
    (hget : ps.place_params.mean_group_size.get?
      (place.place_type.value - 1) = none)
    (hca : closure_active ps i time = Except.ok false) :
    place_inf ps place i time = Except.ok
      (ps.place_params.place_transmission / 1 * person_inf i time) := by
  have h1 : (ps.place_params.mean_group_size.get?
      (place.place_type.value - 1)).getD 1 = 1 := by
    rw [hget]
    rfl
  have h2 := place_inf_open hca (by rw [h1]; norm_num)
  rw [h2, h1]

theorem C6_witness :
    place_inf params_c6 place_one person_inf_two 1 = Except.ok 2 := by
  have h := C6_missing_group_size_defaults params_c6 place_one
    person_inf_two 1 rfl rfl
  rw [h]
  norm_num [person_inf, person_inf_two, person_plain, params_c6, params_base]

/-- C10: a configured mean group size of 0, with the closure gate not
firing, makes place_inf raise a division-by-zero error instead of
returning a number. -/
theorem C10_zero_group_size_division (ps : Parameters) (place : Place)
    (i : Person) (time : ℚ)
    (hget : ps.place_params.mean_group_size.get?
      (place.place_type.value - 1) = some 0)
    (hca : closure_active ps i time = Except.ok false) :
    place_inf ps place i time = Except.error Err.zeroDivisionError :=
  place_inf_zero_division hca (by rw [hget]; rfl)

theorem C10_witness :
    place_inf params_zero_group place_one person_plain 1 =
      Except.error Err.zeroDivisionError :=
  C10_zero_group_size_division params_zero_group place_one person_plain 1
    rfl rfl

/-- C3: with the closure gate fully satisfied for the infector's microcell
(timestamp value at or before the current time) and a matching place
type, place_inf is exactly 0 regardless of the infector's state, while
household_inf is the personal infectiousness scaled by
closure_household_infectiousness rather than zeroed. -/
theorem C3_closure_zeroes_place_scales_household (ps : Parameters)
    (place : Place) (i : Person) (time t0 : ℚ) (pc : PlaceClosureParams)
    (hct : i.microcell.closure_start_time = some (some t0))
    (hle : t0 ≤ time)
    (hpc : ps.intervention_params.place_closure = some pc)
    (hm : is_place_closed i pc.closure_place_type = true) :
    place_inf ps place i time = Except.ok 0 ∧
    household_inf ps i time = Except.ok
      (person_inf i time * pc.closure_household_infectiousness) := by
  have hca : closure_active ps i time = Except.ok true := by
    rw [closure_active_match hct hpc hm]
    simp [hle]
  exact ⟨place_inf_closed hca,
    household_inf_of_factor (closure_inf_factor_on hca hpc)⟩

theorem C3_witness :
    place_inf params_full place_one person_closed 1 = Except.ok 0 ∧
    household_inf params_full person_closed 1 = Except.ok (1/2) := by
  have h := C3_closure_zeroes_place_scales_household params_full place_one
    person_closed 1 0
    { closure_place_type := [2], closure_household_infectiousness := 1/2 }
    rfl (by norm_num) rfl rfl
  exact ⟨h.1,
    h.2.trans (by norm_num [person_inf, person_closed, person_plain])⟩

/-- C2: with the infector's quarantine active, place_foi scales by the
place-type-indexed quarantine effectiveness squared (the factor enters
both the infectiousness and the susceptibility side), while household_foi
scales by the household quarantine effectiveness exactly once. -/
theorem C2_quarantine_squared_in_place_once_in_household (ps : Parameters)
    (place : Place) (i e : Person) (time qv : ℚ)
    (hq : HouseholdQuarantineParams)
    (hts : ts_active i.quarantine_start_time time = true)
    (hhq : ps.intervention_params.household_quarantine = some hq)
    (hqv : hq.quarantine_place_effectiveness.get?
      (place.place_type.value - 1) = some qv) :
    (∀ v, place_foi ps place (clear_quarantine i) e time = Except.ok v →
      place_foi ps place i e time = Except.ok (qv * qv * v)) ∧
    (∀ v, household_foi ps (clear_quarantine i) e time = Except.ok v →
      household_foi ps i e time =
        Except.ok (hq.quarantine_house_effectiveness * v)) :=
  ⟨fun _ hv => place_foi_quarantine_scale hts hhq hqv hv,
   fun _ hv => household_foi_quarantine_scale hts hhq hv⟩

theorem C2_witness :
    place_foi params_full place_one person_quar person_plain 1 =
      Except.ok (1/2 * (1/2) * 1) ∧
    household_foi params_full person_quar person_plain 1 =
      Except.ok (1/2 * (1/5)) := by
  have h := C2_quarantine_squared_in_place_once_in_household params_full
    place_one person_quar person_plain 1 (1/2)
    { quarantine_house_effectiveness := 1/2
      quarantine_place_effectiveness := [1/2] }
    (by norm_num [ts_active, person_quar, person_plain]) rfl rfl
  refine ⟨h.1 1 ?_, h.2 (1/5) ?_⟩
  · norm_num [place_foi, isolation_place_factor, quarantine_place_factor,
      place_inf, place_susc, distancing_place_factor, closure_active,
      ts_active, person_inf, carehome_place_scale, clear_quarantine,
      person_quar, person_plain, mc_plain, params_full, params_base,
      iv_full, dictGet, listGet]
  · norm_num [household_foi, isolation_house_factor,
      quarantine_house_factor, household_inf, household_susc,
      closure_inf_factor, closure_active, distancing_house_factor,
      ts_active, person_inf, person_susc, carehome_house_scale,
      clear_quarantine, person_quar, person_plain, mc_plain, params_full,
      params_base, iv_full, dictGet]

/-- C8: with all configured parameters and personal curves non-negative,
every successfully computed household or place force-of-infection value
is non-negative. -/
theorem C8_foi_nonneg (ps : Parameters) (place : Place) (i e : Person)
    (time : ℚ) (hnn : ParamsNonneg ps) (hi : PersonNonneg i)
    (he : PersonNonneg e) :
    (∀ v, household_foi ps i e time = Except.ok v → 0 ≤ v) ∧
    (∀ v, place_foi ps place i e time = Except.ok v → 0 ≤ v) :=
  ⟨fun _ h => household_foi_nonneg hnn hi he h,
   fun _ h => place_foi_nonneg hnn hi h⟩

theorem C8_witness :
    household_foi params_base person_plain person_plain 1 =
      Except.ok (1/5) ∧ (0:ℚ) ≤ 1/5 ∧ (0:ℚ) ≤ 0 := by
  have h := C8_foi_nonneg params_base place_one person_plain person_plain 1
    params_base_nonneg person_plain_nonneg person_plain_nonneg
  refine ⟨?_, ?_, le_refl 0⟩
  · norm_num [household_foi, isolation_house_factor,
      quarantine_house_factor, household_inf, household_susc,
      closure_inf_factor, closure_active, distancing_house_factor,
      ts_active, person_inf, person_susc, carehome_house_scale,
      params_base, person_plain, mc_plain, iv_empty, dictGet]
  · refine h.1 (1/5) ?_
    norm_num [household_foi, isolation_house_factor,
      quarantine_house_factor, household_inf, household_susc,
      closure_inf_factor, closure_active, distancing_house_factor,
      ts_active, person_inf, person_susc, carehome_house_scale,
      params_base, person_plain, mc_plain, iv_empty, dictGet]

/-! Extraction lemmas for active factors. -/

theorem isolation_house_factor_ok_active {ps : Parameters} {i : Person}
    {time v : ℚ} (hts : ts_active i.isolation_start_time time = true)
    (h : isolation_house_factor ps i time = Except.ok v) :
    ∃ ci, ps.intervention_params.case_isolation = some ci ∧
      v = ci.isolation_house_effectiveness := by
  cases hci : ps.intervention_params.case_isolation with
  | none =>
    unfold isolation_house_factor at h
    rw [if_pos hts, hci] at h
    simp [dictGet] at h
  | some ci =>
    rw [isolation_house_factor_active hts hci] at h
    injection h with h'
    exact ⟨ci, rfl, h'.symm⟩

theorem isolation_place_factor_ok_active {ps : Parameters} {i : Person}
    {time v : ℚ} (hts : ts_active i.isolation_start_time time = true)
    (h : isolation_place_factor ps i time = Except.ok v) :
    ∃ ci, ps.intervention_params.case_isolation = some ci ∧
      v = ci.isolation_effectiveness := by
  cases hci : ps.intervention_params.case_isolation with
  | none =>
    unfold isolation_place_factor at h
    rw [if_pos hts, hci] at h
    simp [dictGet] at h
  | some ci =>
    rw [isolation_place_factor_active hts hci] at h
    injection h with h'
    exact ⟨ci, rfl, h'.symm⟩

theorem quarantine_house_factor_ok_active {ps : Parameters} {i : Person}
    {time v : ℚ} (hts : ts_active i.quarantine_start_time time = true)
    (h : quarantine_house_factor ps i time = Except.ok v) :
    ∃ hq, ps.intervention_params.household_quarantine = some hq ∧
      v = hq.quarantine_house_effectiveness := by
  cases hhq : ps.intervention_params.household_quarantine with
  | none =>
    unfold quarantine_house_factor at h
    rw [if_pos hts, hhq] at h
    simp [dictGet] at h
  | some hq =>
    rw [quarantine_house_factor_active hts hhq] at h
    injection h with h'
    exact ⟨hq, rfl, h'.symm⟩

theorem quarantine_place_factor_ok_active {ps : Parameters} {place : Place}
    {i : Person} {time v : ℚ}
    (hts : ts_active i.quarantine_start_time time = true)
    (h : quarantine_place_factor ps place i time = Except.ok v) :
    ∃ hq, ps.intervention_params.household_quarantine = some hq ∧
      hq.quarantine_place_effectiveness.get?
        (place.place_type.value - 1) = some v := by
  cases hhq : ps.intervention_params.household_quarantine with
  | none =>
    unfold quarantine_place_factor at h
    rw [if_pos hts, hhq] at h
    simp [dictGet] at h
  | some hq =>
    rw [quarantine_place_factor_active hts hhq] at h
    unfold listGet at h
    cases hg : hq.quarantine_place_effectiveness.get?
        (place.place_type.value - 1) with
    | none => rw [hg] at h; exact absurd h (by simp)
    | some w =>
      rw [hg] at h
      injection h with h'
      exact ⟨hq, rfl, by rw [hg, h']⟩

theorem distancing_house_factor_ok_active {ps : Parameters} {i : Person}
    {time v : ℚ}
    (hts : ts_active i.microcell.distancing_start_time time = true)
    (h : distancing_house_factor ps i time = Except.ok v) :
    ∃ sd, ps.intervention_params.social_distancing = some sd ∧
      v = (if i.distancing_enhanced then sd.distancing_house_enhanced_susc
        else sd.distancing_house_susc) := by
  cases hsd : ps.intervention_params.social_distancing with
  | none =>
    unfold distancing_house_factor at h
    rw [if_pos hts, hsd] at h
    simp [dictGet] at h
  | some sd =>
    rw [distancing_house_factor_active hts hsd] at h
    injection h with h'
    exact ⟨sd, rfl, h'.symm⟩

theorem distancing_place_factor_ok_active {ps : Parameters} {place : Place}
    {i : Person} {time v : ℚ}
    (hts : ts_active i.microcell.distancing_start_time time = true)
    (h : distancing_place_factor ps place i time = Except.ok v) :
    ∃ sd, ps.intervention_params.social_distancing = some sd ∧
      (if i.distancing_enhanced then sd.distancing_place_enhanced_susc
        else sd.distancing_place_susc).get?
        (place.place_type.value - 1) = some v := by
  cases hsd : ps.intervention_params.social_distancing with
  | none =>
    unfold distancing_place_factor at h
    rw [if_pos hts, hsd] at h
    simp [dictGet] at h
  | some sd =>
    rw [distancing_place_factor_active hts hsd] at h
    unfold listGet at h
    cases hg : (if i.distancing_enhanced then
        sd.distancing_place_enhanced_susc
        else sd.distancing_place_susc).get?
        (place.place_type.value - 1) with
    | none => rw [hg] at h; exact absurd h (by simp)
    | some w =>
      rw [hg] at h
      injection h with h'
      exact ⟨sd, rfl, by rw [hg, h']⟩

/-- C7: with every configured parameter non-negative and every
intervention effect factor in the unit interval, activating any one of
the isolation, quarantine or distancing modifiers (timestamp set to a
value at or before the current time, everything else fixed) never
increases household_foi or place_foi relative to the same computation
with that modifier inactive. -/
theorem C7_active_modifier_monotone (ps : Parameters) (place : Place)
    (i e : Person) (time t0 : ℚ) (hle : t0 ≤ time)
    (hnn : ParamsNonneg ps) (hf1 : FactorsLeOne ps)
    (hi : PersonNonneg i) (he : PersonNonneg e) :
    (∀ v v', household_foi ps
        { i with isolation_start_time := some (some t0) } e time =
        Except.ok v →
      household_foi ps { i with isolation_start_time := none } e time =
        Except.ok v' → v ≤ v') ∧
    (∀ v v', household_foi ps
        { i with quarantine_start_time := some (some t0) } e time =
        Except.ok v →
      household_foi ps { i with quarantine_start_time := none } e time =
        Except.ok v' → v ≤ v') ∧
    (∀ v v', household_foi ps
        { i with microcell :=
          { i.microcell with distancing_start_time := some (some t0) } }
        e time = Except.ok v →
      household_foi ps
        { i with microcell :=
          { i.microcell with distancing_start_time := none } } e time =
        Except.ok v' → v ≤ v') ∧
    (∀ v v', place_foi ps place
        { i with isolation_start_time := some (some t0) } e time =
        Except.ok v →
      place_foi ps place { i with isolation_start_time := none } e time =
        Except.ok v' → v ≤ v') ∧
    (∀ v v', place_foi ps place
        { i with quarantine_start_time := some (some t0) } e time =
        Except.ok v →
      place_foi ps place { i with quarantine_start_time := none } e time =
        Except.ok v' → v ≤ v') ∧
    (∀ v v', place_foi ps place
        { i with microcell :=
          { i.microcell with distancing_start_time := some (some t0) } }
        e time = Except.ok v →
      place_foi ps place
        { i with microcell :=
          { i.microcell with distancing_start_time := none } } e time =
        Except.ok v' → v ≤ v') := by
  refine ⟨?_, ?_, ?_, ?_, ?_, ?_⟩
  · intro v v' hv hv'
    have hts : ts_active
        ({ i with isolation_start_time := some (some t0) } :
          Person).isolation_start_time time = true := by
      simp [ts_active, hle]
    obtain ⟨iso, q, cf, df, hiso, hq, hcf, hdf, hveq⟩ :=
      household_foi_ok_elim hv
    obtain ⟨ci, hci, hisoeq⟩ := isolation_house_factor_ok_active hts hiso
    have hv'' : household_foi ps
        (clear_isolation { i with isolation_start_time := some (some t0) })
        e time = Except.ok v' := hv'
    have hscale := household_foi_isolation_scale hts hci hv''
    rw [hv] at hscale
    injection hscale with heq
    have hv0 : 0 ≤ v' := by
      refine household_foi_nonneg hnn ?_ he hv''
      exact ⟨hi.inf_nonneg, hi.susc_nonneg⟩
    have hc1 : ci.isolation_house_effectiveness ≤ 1 :=
      (hf1.isolation_le_one ci (Option.mem_def.mpr hci)).2
    rw [heq]
    exact mul_le_of_le_one_left hv0 hc1
  · intro v v' hv hv'
    have hts : ts_active
        ({ i with quarantine_start_time := some (some t0) } :
          Person).quarantine_start_time time = true := by
      simp [ts_active, hle]
    obtain ⟨iso, q, cf, df, hiso, hq, hcf, hdf, hveq⟩ :=
      household_foi_ok_elim hv
    obtain ⟨hqp, hhq, hqeq⟩ := quarantine_house_factor_ok_active hts hq
    have hv'' : household_foi ps
        (clear_quarantine { i with quarantine_start_time := some (some t0) })
        e time = Except.ok v' := hv'
    have hscale := household_foi_quarantine_scale hts hhq hv''
    rw [hv] at hscale
    injection hscale with heq
    have hv0 : 0 ≤ v' := by
      refine household_foi_nonneg hnn ?_ he hv''
      exact ⟨hi.inf_nonneg, hi.susc_nonneg⟩
    have hc1 : hqp.quarantine_house_effectiveness ≤ 1 :=
      (hf1.quarantine_le_one hqp (Option.mem_def.mpr hhq)).1
    rw [heq]
    exact mul_le_of_le_one_left hv0 hc1
  · intro v v' hv hv'
    have hts : ts_active
        ({ i with microcell :=
          { i.microcell with distancing_start_time := some (some t0) } } :
          Person).microcell.distancing_start_time time = true := by
      simp [ts_active, hle]
    obtain ⟨iso, q, cf, df, hiso, hq, hcf, hdf, hveq⟩ :=
      household_foi_ok_elim hv
    obtain ⟨sd, hsd, hdfeq⟩ := distancing_house_factor_ok_active hts hdf
    have hv'' : household_foi ps
        (clear_distancing { i with microcell :=
          { i.microcell with distancing_start_time := some (some t0) } })
        e time = Except.ok v' := hv'
    have hscale := household_foi_distancing_scale hts hsd hv''
    rw [hv] at hscale
    injection hscale with heq
    have hv0 : 0 ≤ v' := by
      refine household_foi_nonneg hnn ?_ he hv''
      exact ⟨hi.inf_nonneg, hi.susc_nonneg⟩
    have hmem := hf1.distancing_le_one sd (Option.mem_def.mpr hsd)
    have hc1 : (if ({ i with microcell :=
        { i.microcell with distancing_start_time := some (some t0) } } :
          Person).distancing_enhanced then
        sd.distancing_house_enhanced_susc
        else sd.distancing_house_susc) ≤ 1 := by
      cases hb : i.distancing_enhanced
      · simp only [hb, Bool.false_eq_true, if_neg]
        exact hmem.1
      · simp only [hb, if_pos]
        exact hmem.2.1
    rw [heq]
    exact mul_le_of_le_one_left hv0 hc1
  · intro v v' hv hv'
    have hts : ts_active
        ({ i with isolation_start_time := some (some t0) } :
          Person).isolation_start_time time = true := by
      simp [ts_active, hle]
    obtain ⟨iso, q, pinf, f, hiso, hq, hpi, hf, hveq⟩ :=
      place_foi_ok_elim hv
    obtain ⟨ci, hci, hisoeq⟩ := isolation_place_factor_ok_active hts hiso
    have hv'' : place_foi ps place
        (clear_isolation { i with isolation_start_time := some (some t0) })
        e time = Except.ok v' := hv'
    have hscale := place_foi_isolation_scale hts hci hv''
    rw [hv] at hscale
    injection hscale with heq
    have hv0 : 0 ≤ v' := by
      refine place_foi_nonneg hnn ?_ hv''
      exact ⟨hi.inf_nonneg, hi.susc_nonneg⟩
    have hc1 : ci.isolation_effectiveness ≤ 1 :=
      (hf1.isolation_le_one ci (Option.mem_def.mpr hci)).1
    rw [heq]
    exact mul_le_of_le_one_left hv0 hc1
  · intro v v' hv hv'
    have hts : ts_active
        ({ i with quarantine_start_time := some (some t0) } :
          Person).quarantine_start_time time = true := by
      simp [ts_active, hle]
    obtain ⟨iso, q, pinf, f, hiso, hq, hpi, hf, hveq⟩ :=
      place_foi_ok_elim hv
    obtain ⟨hqp, hhq, hgv⟩ := quarantine_place_factor_ok_active hts hq
    have hv'' : place_foi ps place
        (clear_quarantine { i with quarantine_start_time := some (some t0) })
        e time = Except.ok v' := hv'
    have hscale := place_foi_quarantine_scale hts hhq hgv hv''
    rw [hv] at hscale
    injection hscale with heq
    have hv0 : 0 ≤ v' := by
      refine place_foi_nonneg hnn ?_ hv''
      exact ⟨hi.inf_nonneg, hi.susc_nonneg⟩
    have hq0 : 0 ≤ q :=
      (hnn.quarantine_nonneg hqp (Option.mem_def.mpr hhq)).2 q
        (List.get?_mem hgv)
    have hq1 : q ≤ 1 :=
      (hf1.quarantine_le_one hqp (Option.mem_def.mpr hhq)).2 q
        (List.get?_mem hgv)
    rw [heq]
    exact mul_le_of_le_one_left hv0 (mul_le_one₀ hq1 hq0 hq1)
  · intro v v' hv hv'
    have hts : ts_active
        ({ i with microcell :=
          { i.microcell with distancing_start_time := some (some t0) } } :
          Person).microcell.distancing_start_time time = true := by
      simp [ts_active, hle]
    obtain ⟨iso, q, pinf, f, hiso, hq, hpi, hf, hveq⟩ :=
      place_foi_ok_elim hv
    obtain ⟨sd, hsd, hgv⟩ := distancing_place_factor_ok_active hts hf
    have hv'' : place_foi ps place
        (clear_distancing { i with microcell :=
          { i.microcell with distancing_start_time := some (some t0) } })
        e time = Except.ok v' := hv'
    have hscale := place_foi_distancing_scale hts hsd hgv hv''
    rw [hv] at hscale
    injection hscale with heq
    have hv0 : 0 ≤ v' := by
      refine place_foi_nonneg hnn ?_ hv''
      exact ⟨hi.inf_nonneg, hi.susc_nonneg⟩
    have hmem := hf1.distancing_le_one sd (Option.mem_def.mpr hsd)
    have hc1 : f ≤ 1 := by
      cases hb : i.distancing_enhanced
      · rw [show ({ i with microcell :=
            { i.microcell with distancing_start_time := some (some t0) } } :
            Person).distancing_enhanced = i.distancing_enhanced from rfl,
          hb] at hgv
        simp only [Bool.false_eq_true, if_neg] at hgv
        exact hmem.2.2.1 f (List.get?_mem hgv)
      · rw [show ({ i with microcell :=
            { i.microcell with distancing_start_time := some (some t0) } } :
            Person).distancing_enhanced = i.distancing_enhanced from rfl,
          hb] at hgv
        simp only [if_pos] at hgv
        exact hmem.2.2.2 f (List.get?_mem hgv)
    rw [heq]
    exact mul_le_of_le_one_left hv0 hc1

theorem C7_witness :
    household_foi params_full
      { person_plain with isolation_start_time := some (some 0) }
      person_plain 1 = Except.ok (1/10) ∧ (1/10 : ℚ) ≤ 1/5 := by
  have h := C7_active_modifier_monotone params_full place_one person_plain
    person_plain 1 0 (by norm_num) params_full_nonneg params_full_le_one
    person_plain_nonneg person_plain_nonneg
  have hact : household_foi params_full
      { person_plain with isolation_start_time := some (some 0) }
      person_plain 1 = Except.ok (1/10) := by
    norm_num [household_foi, isolation_house_factor,
      quarantine_house_factor, household_inf, household_susc,
      closure_inf_factor, closure_active, distancing_house_factor,
      ts_active, person_inf, person_susc, carehome_house_scale,
      params_full, params_base, iv_full, person_plain, mc_plain, dictGet]
  have hinact : household_foi params_full
      { person_plain with isolation_start_time := none }
      person_plain 1 = Except.ok (1/5) := by
    norm_num [household_foi, isolation_house_factor,
      quarantine_house_factor, household_inf, household_susc,
      closure_inf_factor, closure_active, distancing_house_factor,
      ts_active, person_inf, person_susc, carehome_house_scale,
      params_full, params_base, iv_full, person_plain, mc_plain, dictGet]
  exact ⟨hact, h.1 (1/10) (1/5) hact hinact⟩

/-- C1 counterexample: at this concrete input the closure timestamp
attribute exists, is non-None and at or before the current time, and the
configured closure_household_infectiousness is 1/2, yet household_inf
uses the factor 1 — because the infector's place-of-interest does not
match closure_place_type — contradicting the claim that the factor is
looked up exactly when the timestamp conditions hold. -/
theorem C1_counterexample :
    person_mismatch.microcell.closure_start_time = some (some 0) ∧
    ((0:ℚ) ≤ 1) ∧
    (params_full.intervention_params.place_closure.map
      (fun pc => pc.closure_household_infectiousness)) = some (1/2) ∧
    household_inf params_full person_mismatch 1 = Except.ok 1 ∧
    (Except.ok (1:ℚ) : Except Err ℚ) ≠ Except.ok ((1:ℚ) * (1/2)) := by
  refine ⟨rfl, by norm_num, rfl, ?_, by norm_num⟩
  norm_num [household_inf, closure_inf_factor, closure_active,
    is_place_closed, person_inf, person_mismatch, person_plain, mc_plain,
    params_full, params_base, iv_full, dictGet]

/-- C1 amended: for the social-distancing, case-isolation and
household-quarantine gates the factor is looked up from Parameters
exactly when the timestamp attribute exists, is not None and is at or
before the current time, and otherwise the factor is exactly 1 with no
Parameters lookup (the result is independent of that intervention's
configuration).  For the place-closure gates of household_inf and
place_inf the closure effect additionally requires the infector's
place-of-interest to match closure_place_type; whenever the
closure_start_time attribute exists, closure_place_type is looked up
(KeyError when place_closure is unconfigured), and only an absent
attribute avoids the lookup. -/
theorem C1_amended_gating (ps : Parameters) (place : Place) (i e : Person)
    (time : ℚ) :
    (ts_active i.microcell.distancing_start_time time = false →
      ∀ sd, household_susc (set_social_distancing ps sd) i e time =
        Except.ok (person_susc i e time)) ∧
    (∀ sd, ts_active i.microcell.distancing_start_time time = true →
      ps.intervention_params.social_distancing = some sd →
      household_susc ps i e time = Except.ok (person_susc i e time *
        (if i.distancing_enhanced then sd.distancing_house_enhanced_susc
         else sd.distancing_house_susc))) ∧
    (ts_active i.microcell.distancing_start_time time = false →
      ∀ sd, place_susc (set_social_distancing ps sd) place i e time =
        Except.ok 1) ∧
    (∀ sd dv, ts_active i.microcell.distancing_start_time time = true →
      ps.intervention_params.social_distancing = some sd →
      (if i.distancing_enhanced then sd.distancing_place_enhanced_susc
        else sd.distancing_place_susc).get? (place.place_type.value - 1) =
        some dv →
      place_susc ps place i e time = Except.ok dv) ∧
    (ts_active i.isolation_start_time time = false →
      ∀ ci, household_foi (set_case_isolation ps ci) i e time =
        household_foi ps i e time) ∧
    (∀ ci, ts_active i.isolation_start_time time = true →
      ps.intervention_params.case_isolation = some ci →
      isolation_house_factor ps i time =
        Except.ok ci.isolation_house_effectiveness) ∧
    (ts_active i.quarantine_start_time time = false →
      ∀ hq, household_foi (set_household_quarantine ps hq) i e time =
        household_foi ps i e time) ∧
    (∀ hq, ts_active i.quarantine_start_time time = true →
      ps.intervention_params.household_quarantine = some hq →
      quarantine_house_factor ps i time =
        Except.ok hq.quarantine_house_effectiveness) ∧
    (ts_active i.isolation_start_time time = false →
      ∀ ci, place_foi (set_case_isolation ps ci) place i e time =
        place_foi ps place i e time) ∧
    (∀ ci, ts_active i.isolation_start_time time = true →
      ps.intervention_params.case_isolation = some ci →
      isolation_place_factor ps i time =
        Except.ok ci.isolation_effectiveness) ∧
    (ts_active i.quarantine_start_time time = false →
      ∀ hq, place_foi (set_household_quarantine ps hq) place i e time =
        place_foi ps place i e time) ∧
    (∀ hq qv, ts_active i.quarantine_start_time time = true →
      ps.intervention_params.household_quarantine = some hq →
      hq.quarantine_place_effectiveness.get? (place.place_type.value - 1) =
        some qv →
      quarantine_place_factor ps place i time = Except.ok qv) ∧
    (i.microcell.closure_start_time = none →
      ∀ pc, household_inf (set_place_closure ps pc) i time =
          Except.ok (person_inf i time) ∧
        place_inf (set_place_closure ps pc) place i time =
          place_inf ps place i time) ∧
    (∀ st, i.microcell.closure_start_time = some st →
      household_inf (set_place_closure ps none) i time =
        Except.error Err.keyError ∧
      place_inf (set_place_closure ps none) place i time =
        Except.error Err.keyError) ∧
    (∀ pc t0, i.microcell.closure_start_time = some (some t0) → t0 ≤ time →
      ps.intervention_params.place_closure = some pc →
      is_place_closed i pc.closure_place_type = true →
      household_inf ps i time = Except.ok
        (person_inf i time * pc.closure_household_infectiousness)) ∧
    (∀ pc st, i.microcell.closure_start_time = some st →
      ps.intervention_params.place_closure = some pc →
      is_place_closed i pc.closure_place_type = false →
      household_inf ps i time = Except.ok (person_inf i time)) ∧
    (∀ pc t0, i.microcell.closure_start_time = some (some t0) →
      ¬t0 ≤ time → ps.intervention_params.place_closure = some pc →
      household_inf ps i time = Except.ok (person_inf i time)) := by
  refine ⟨?_, ?_, ?_, ?_, ?_, ?_, ?_, ?_, ?_, ?_, ?_, ?_, ?_, ?_, ?_, ?_,
    ?_⟩
  · intro hts sd
    rw [household_susc_of_factor (distancing_house_factor_inactive hts),
      mul_one]
  · intro sd hts hsd
    rw [household_susc_of_factor (distancing_house_factor_active hts hsd)]
  · intro hts sd
    rw [place_susc_of_factor (distancing_place_factor_inactive hts),
      mul_one]
  · intro sd dv hts hsd hg
    have hf : distancing_place_factor ps place i time = Except.ok dv := by
      rw [distancing_place_factor_active hts hsd]
      exact listGet_of_some hg
    rw [place_susc_of_factor hf, one_mul]
  · intro hts ci
    refine household_foi_factor_congr ?_ rfl rfl rfl rfl rfl rfl
    rw [@isolation_house_factor_inactive (set_case_isolation ps ci) i time
      hts, @isolation_house_factor_inactive ps i time hts]
  · intro ci hts hci
    exact isolation_house_factor_active hts hci
  · intro hts hq
    refine household_foi_factor_congr rfl ?_ rfl rfl rfl rfl rfl
    rw [@quarantine_house_factor_inactive (set_household_quarantine ps hq)
      i time hts, @quarantine_house_factor_inactive ps i time hts]
  · intro hq hts hhq
    exact quarantine_house_factor_active hts hhq
  · intro hts ci
    refine place_foi_factor_congr ?_ rfl rfl rfl rfl
    rw [@isolation_place_factor_inactive (set_case_isolation ps ci) i time
      hts, @isolation_place_factor_inactive ps i time hts]
  · intro ci hts hci
    exact isolation_place_factor_active hts hci
  · intro hts hq
    refine place_foi_factor_congr rfl ?_ rfl rfl rfl
    rw [@quarantine_place_factor_inactive (set_household_quarantine ps hq)
      place i time hts, @quarantine_place_factor_inactive ps place i time
      hts]
  · intro hq qv hts hhq hg
    rw [quarantine_place_factor_active hts hhq]
    exact listGet_of_some hg
  · intro hct pc
    constructor
    · have hca : closure_active (set_place_closure ps pc) i time =
          Except.ok false := closure_active_absent hct
      rw [household_inf_of_factor (closure_inf_factor_off hca), mul_one]
    · refine place_inf_congr ?_ rfl
      rw [@closure_active_absent (set_place_closure ps pc) i time hct,
        @closure_active_absent ps i time hct]
  · intro st hct
    have hca : closure_active (set_place_closure ps none) i time =
        Except.error Err.keyError := closure_active_missing_key hct rfl
    exact ⟨household_inf_error (closure_inf_factor_error hca),
      place_inf_error hca⟩
  · intro pc t0 hct hle hpc hm
    have hca : closure_active ps i time = Except.ok true := by
      rw [closure_active_match hct hpc hm]
      simp [hle]
    exact household_inf_of_factor (closure_inf_factor_on hca hpc)
  · intro pc st hct hpc hm
    rw [household_inf_of_factor
      (closure_inf_factor_off (closure_active_nomatch hct hpc hm)),
      mul_one]
  · intro pc t0 hct hnle hpc
    have hca : closure_active ps i time = Except.ok false := by
      cases hm : is_place_closed i pc.closure_place_type
      · exact closure_active_nomatch hct hpc hm
      · rw [closure_active_match hct hpc hm]
        simp [hnle]
    rw [household_inf_of_factor (closure_inf_factor_off hca), mul_one]

theorem C1_witness :
    household_susc params_full person_dist person_plain 1 =
      Except.ok (1/2) ∧
    household_inf (set_place_closure params_full none) person_closed 1 =
      Except.error Err.keyError := by
  have h1 := C1_amended_gating params_full place_one person_dist
    person_plain 1
  have h2 := C1_amended_gating params_full place_one person_closed
    person_plain 1
  constructor
  · have hc := h1.2.1
      { distancing_house_susc := 1/2
        distancing_house_enhanced_susc := 1/4
        distancing_place_susc := [1/2]
        distancing_place_enhanced_susc := [1/4] }
      (by norm_num [ts_active, person_dist, person_plain, mc_plain]) rfl
    exact hc.trans
      (by norm_num [person_susc, person_dist, person_plain])
  · exact (h2.2.2.2.2.2.2.2.2.2.2.2.2.2.1 (some 0) rfl).1

/-- C4 counterexample: with social distancing active and the place's index
absent from distancing_place_susc, place_susc raises IndexError rather
than returning the factor 1. -/
theorem C4_counterexample :
    ts_active person_dist.microcell.distancing_start_time 1 = true ∧
    place_susc params_sd_short place_one person_dist person_plain 1 =
      Except.error Err.indexError ∧
    (Except.error Err.indexError : Except Err ℚ) ≠ Except.ok 1 := by
  refine ⟨?_, ?_, by simp⟩
  · norm_num [ts_active, person_dist, person_plain, mc_plain]
  · norm_num [place_susc, distancing_place_factor, ts_active, person_dist,
      person_plain, mc_plain, params_sd_short, params_base, iv_empty,
      dictGet, listGet]

/-- C4 amended: only the mean_group_size index miss is caught (the group
size defaults to 1); place_susc under active distancing and place_foi's
quarantine factor under active quarantine propagate an IndexError when
the place's index is absent from the configured list. -/
theorem C4_amended_index_misses (ps : Parameters) (place : Place)
    (i e : Person) (time : ℚ) :
    (ps.place_params.mean_group_size.get? (place.place_type.value - 1) =
        none →
      closure_active ps i time = Except.ok false →
      place_inf ps place i time = Except.ok
        (ps.place_params.place_transmission / 1 * person_inf i time)) ∧
    (∀ sd, ts_active i.microcell.distancing_start_time time = true →
      ps.intervention_params.social_distancing = some sd →
      (if i.distancing_enhanced then sd.distancing_place_enhanced_susc
        else sd.distancing_place_susc).get? (place.place_type.value - 1) =
        none →
      place_susc ps place i e time = Except.error Err.indexError) ∧
    (∀ hq, ts_active i.isolation_start_time time = false →
      ts_active i.quarantine_start_time time = true →
      ps.intervention_params.household_quarantine = some hq →
      hq.quarantine_place_effectiveness.get? (place.place_type.value - 1) =
        none →
      place_foi ps place i e time = Except.error Err.indexError) := by
  refine ⟨?_, ?_, ?_⟩
  · intro hget hca
    have h1 : (ps.place_params.mean_group_size.get?
        (place.place_type.value - 1)).getD 1 = 1 := by
      rw [hget]
      rfl
    have h2 := place_inf_open hca (by rw [h1]; norm_num)
    rw [h2, h1]
  · intro sd hts hsd hg
    have hf : distancing_place_factor ps place i time =
        Except.error Err.indexError := by
      rw [distancing_place_factor_active hts hsd]
      exact listGet_of_none hg
    exact place_susc_error hf
  · intro hq hiso hts hhq hg
    have hqf : quarantine_place_factor ps place i time =
        Except.error Err.indexError := by
      rw [quarantine_place_factor_active hts hhq]
      exact listGet_of_none hg
    simp [place_foi, isolation_place_factor_inactive hiso, hqf]

theorem C4_witness :
    place_foi params_sd_short place_one person_quar person_plain 1 =
      Except.error Err.indexError := by
  have h := C4_amended_index_misses params_sd_short place_one person_quar
    person_plain 1
  exact h.2.2
    { quarantine_house_effectiveness := 1/2
      quarantine_place_effectiveness := [] }
    rfl (by norm_num [ts_active, person_quar, person_plain]) rfl rfl

end Epiabm
